import Mathlib

/-
Verification of the ray-geometry core of RAiDER (tools/RAiDER/utilFcns.py).

Arrays are embedded as a shape together with flattened rational data:
numpy float64 arithmetic is modelled exactly over ℚ. The `Zenith`
sentinel from RAiDER.constants (not part of the sources here) is
modelled from the spec as a distinguished constructor of a sum type,
carrying no array interface. The HDF5 file produced by writePnts2HDF5
is modelled as a pure value: an ordered list of named datasets plus
file-level attributes. Chunk arguments are validated at each dataset
creation as h5py does; automatic chunk guessing (chunks=True) is an
external helper passed in as a parameter. External library calls
(pyproj geodetic transform, numpy trigonometry, h5py chunk guessing,
osgeo WKT export) enter as parameters or constants.
-/

/-- A numpy ndarray: a shape and the row-major flattened data. -/
structure NdArray where
  shape : List ℕ
  data : List ℚ
deriving DecidableEq, Repr

/-- numpy size: the product of the shape (1 for a 0-d array). -/
def NdArray.size (a : NdArray) : ℕ := a.shape.prod

/-- A line-of-sight argument: either the Zenith sentinel (modelled from the
spec: a distinguished singleton with no array interface, compared by
identity) or an ndarray of look-vector components. -/
inductive LOS where
  | zenith
  | arr (a : NdArray)
deriving DecidableEq, Repr

/-- Errors raised out of checkLOS (utilFcns.py lines 289-304). -/
inductive LosError where
  | reshapeError
  | countMismatch (found expected : ℕ)
deriving DecidableEq, Repr

/-- checkShapes (utilFcns.py lines 269-287). The source computes
test1 = (hts.shape == lats.shape == lons.shape), a chained conjunction,
and test2 = (los.shape[:-1] == hts.shape), falling back to
(los is Zenith) when los has no shape attribute, and then raises on
the condition (not test1) and test2, exactly as written there. -/
def checkShapes (los : LOS) (lats lons hts : NdArray) : Except String Unit :=
  let test1 := (hts.shape == lats.shape) && (lats.shape == lons.shape)
  let test2 := match los with
    | .zenith => true
    | .arr a => a.shape.dropLast == hts.shape
  if !test1 && test2 then
    .error "I need lats, lons, heights, and los to all be the same shape."
  else
    .ok ()

/-- checkLOS (utilFcns.py lines 289-304). When los is not Zenith the
source first runs los.reshape(-1, 3); numpy rejects that reshape with a
generic ValueError whenever the total element count is not a multiple
of 3, and otherwise yields a (size/3, 3) view. Only then is the row
count compared against Npts, raising RuntimeError on mismatch. -/
def checkLOS (los : LOS) (Npts : ℕ) : Except LosError LOS :=
  match los with
  | .zenith => .ok .zenith
  | .arr a =>
      if a.size % 3 = 0 then
        let r : NdArray := ⟨[a.size / 3, 3], a.data⟩
        if r.shape.headD 0 ≠ Npts then
          .error (.countMismatch (r.shape.headD 0) Npts)
        else
          .ok (.arr r)
      else
        .error .reshapeError

/-- enu2ecef (utilFcns.py lines 40-54). The degree-argument trigonometric
helpers sind and cosd (numpy) and the geodetic-to-geocentric transform
lla2ecef (pyproj, an external collaborator) are parameters of the
embedding; the rotation and the final offset addition are the code
of enu2ecef itself. -/
def enu2ecef (sind cosd : ℚ → ℚ) (lla2ecef : ℚ → ℚ → ℚ → ℚ × ℚ × ℚ)
    (east north up lat0 lon0 h0 : ℚ) : ℚ × ℚ × ℚ :=
  let p := lla2ecef lat0 lon0 h0
  let t := cosd lat0 * up - sind lat0 * north
  let w := sind lat0 * up + cosd lat0 * north
  let u := cosd lon0 * t - sind lon0 * east
  let v := sind lon0 * t + cosd lon0 * east
  (p.1 + u, p.2.1 + v, p.2.2 + w)

/-- np.arange(0, stop, step) for a positive step: the points k * step for
k below ⌈stop / step⌉, in exact rational arithmetic. -/
def arange0 (stop step : ℚ) : List ℚ :=
  (List.range (⌈stop / step⌉).toNat).map (fun k : ℕ => (k : ℚ) * step)

/-- The point count of utilFcns.py line 528:
int(max_len // stepSize) + (1 if max_len % stepSize != 0 else 0),
with Python floor division and its matching remainder
max_len - stepSize * ⌊max_len / stepSize⌋. -/
def raysNpts (max_len stepSize : ℚ) : ℤ :=
  ⌊max_len / stepSize⌋ +
    (if max_len - stepSize * ⌊max_len / stepSize⌋ ≠ 0 then 1 else 0)

/-- makePoints1D (utilFcns.py lines 515-533): rows indexed by k3 with
ray[k3] = Rays_SP[k3] + basespace * Rays_SLV[k3]. The source allocates
Npts columns and fills them from basespace; numpy would reject the
assignment if the two lengths differed, so the embedding guards on
that equality and returns none in that case. -/
def makePoints1D (max_len : ℚ) (Rays_SP Rays_SLV : Fin 3 → ℚ) (stepSize : ℚ) :
    Option (Fin 3 → List ℚ) :=
  let basespace := arange0 max_len stepSize
  if (basespace.length : ℤ) = raysNpts max_len stepSize then
    some (fun k3 => basespace.map (fun b => Rays_SP k3 + b * Rays_SLV k3))
  else
    none

/-- makePoints3D (utilFcns.py lines 535-560): the nested loops fill, for
every pixel (k1, k2, k2a) and component k3, the row
Rays_SP[k1,k2,k2a,k3] + basespace * Rays_SLV[k1,k2,k2a,k3], with the
same Npts and basespace as the 1-D form, guarded as in makePoints1D. -/
def makePoints3D {nrow ncol nz : ℕ} (max_len : ℚ)
    (Rays_SP Rays_SLV : Fin nrow → Fin ncol → Fin nz → Fin 3 → ℚ)
    (stepSize : ℚ) :
    Option (Fin nrow → Fin ncol → Fin nz → Fin 3 → List ℚ) :=
  let basespace := arange0 max_len stepSize
  if (basespace.length : ℤ) = raysNpts max_len stepSize then
    some (fun k1 k2 k2a k3 => basespace.map
      (fun b => Rays_SP k1 k2 k2a k3 + b * Rays_SLV k1 k2 k2a k3))
  else
    none

/-- An HDF5 attribute value. h5py can store strings, numbers and integer
tuples; a None python value is modelled by the null constructor. -/
inductive AttrVal where
  | str (s : String)
  | rat (q : ℚ)
  | nat (n : ℕ)
  | natList (l : List ℕ)
  | null
deriving DecidableEq, Repr

/-- An HDF5 dataset: shape, flattened contents, dtype tag and its
attributes, in insertion order. -/
structure Dset where
  shape : List ℕ
  data : List ℚ
  dtype : String
  attrs : List (String × AttrVal)
deriving DecidableEq, Repr

/-- An HDF5 file: file-level attributes and named datasets, each in
insertion order. Chunk arguments are validated when a dataset is
created (see chunkFits); the accepted layout itself is not stored. -/
structure H5 where
  fattrs : List (String × AttrVal)
  dsets : List (String × Dset)
deriving DecidableEq, Repr

/-- f.create_dataset(name, ...): appends a named dataset. -/
def H5.addDs (f : H5) (name : String) (d : Dset) : H5 :=
  ⟨f.fattrs, f.dsets ++ [(name, d)]⟩

/-- f.attrs[k] = v at file level. -/
def H5.setFAttr (f : H5) (k : String) (v : AttrVal) : H5 :=
  ⟨f.fattrs ++ [(k, v)], f.dsets⟩

/-- ds.attrs[k] = v on the dataset called name. -/
def H5.setDsAttr (f : H5) (name k : String) (v : AttrVal) : H5 :=
  ⟨f.fattrs, f.dsets.map (fun p =>
    if p.1 = name then (p.1, ⟨p.2.shape, p.2.data, p.2.dtype, p.2.attrs ++ [(k, v)]⟩)
    else p)⟩

/-- Reading a dataset back from the file by name. -/
def H5.ds (f : H5) (name : String) : Option Dset :=
  f.dsets.lookup name

/-- h5py chunk validation for an explicitly given chunk tuple at
create_dataset: scalar datasets reject chunk options, the chunk rank
must match the data rank, every chunk dimension is positive, and no
chunk dimension may exceed the corresponding data dimension. -/
def chunkFits (c shape : List ℕ) : Bool :=
  !shape.isEmpty && c.length == shape.length &&
    (c.zip shape).all (fun p => decide (0 < p.1) && decide (p.1 ≤ p.2))

/-- The chunk layout of the first created dataset (lon, utilFcns.py
lines 462-465): chunks=True makes h5py guess a layout (guess_chunk, an
external helper passed in as autoChunk, which fails only for scalar
shapes and always returns a layout within the shape), while a
caller-supplied tuple is validated against the data shape. -/
def lonChunks (autoChunk : List ℕ → List ℕ) (chunkSize : Option (List ℕ))
    (shape : List ℕ) : Option (List ℕ) :=
  match chunkSize with
  | none => if shape.isEmpty then none else some (autoChunk shape)
  | some c => if chunkFits c shape then some c else none

/-- Failures of writePnts2HDF5: a validation error raised out of
checkLOS; a create_dataset call rejecting its chunk arguments (the
payload names the dataset being created); the AttributeError raised at
utilFcns.py line 469 when los.astype is taken on the Zenith sentinel,
which has no array interface; and the TypeError raised at line 473 when
a Python None is stored as the ChunkSize attribute, which h5py cannot
represent. -/
inductive WriteError where
  | losCheck (e : LosError)
  | datasetError (name : String)
  | attributeError
  | nullAttrError
deriving DecidableEq, Repr

/-- The well-known-text string produced by osr.SpatialReference for
EPSG 4326; an external collaborator, kept as an uninterpreted constant. -/
def wgs84Wkt : String := "WKT of EPSG 4326 from osgeo.osr"

/-- writePnts2HDF5 (utilFcns.py lines 442-512). The result of checkLOS is
discarded, exactly as in the source, so the LOS dataset is written with
the shape the caller passed in. Each create_dataset validates its chunk
argument as h5py does: lon takes chunks=True (guessed by the external
autoChunk) or the caller tuple; lat, hgt and Rays_len reuse x.chunks;
LOS, Rays_SP and Rays_SLV use x.chunks + (3,). Line 473 stores
chunkSize itself as a file attribute, and h5py cannot store a Python
None there, so every chunkSize=None call reaching that line fails with
TypeError. The error payload carries what this call left at the target
path: none when the failure precedes the h5py.File open, or the
partially written file when the failure happens mid-write.
numpy astype(float64) is the identity on the exact rational model. -/
def writePnts2HDF5 (autoChunk : List ℕ → List ℕ) (lats lons hgts : NdArray)
    (los : LOS) (chunkSize : Option (List ℕ)) :
    Except (WriteError × Option H5) H5 :=
  match checkLOS los lats.size with
  | .error e => .error (.losCheck e, none)
  | .ok _ =>
    let in_shape := lats.shape
    let f := (H5.mk [] []).setFAttr "Conventions" (.str "CF-1.8")
    match lonChunks autoChunk chunkSize lons.shape with
    | none => .error (.datasetError "lon", some f)
    | some xchunks =>
      let f := f.addDs "lon" ⟨lons.shape, lons.data, "f8", []⟩
      if chunkFits xchunks lats.shape then
        let f := f.addDs "lat" ⟨lats.shape, lats.data, "f8", []⟩
        if chunkFits xchunks hgts.shape then
          let f := f.addDs "hgt" ⟨hgts.shape, hgts.data, "f8", []⟩
          match los with
          | .zenith => .error (.attributeError, some f)
          | .arr a =>
            if chunkFits (xchunks ++ [3]) a.shape then
              let f := f.addDs "LOS" ⟨a.shape, a.data, "f8", []⟩
              let f := f.setDsAttr "lon" "Shape" (.natList in_shape)
              let f := f.setDsAttr "lat" "Shape" (.natList in_shape)
              let f := f.setDsAttr "hgt" "Shape" (.natList in_shape)
              match chunkSize with
              | none => .error (.nullAttrError, some f)
              | some c =>
                let f := f.setFAttr "ChunkSize" (.natList c)
                let f := f.addDs "projection" ⟨[], [4326], "i", []⟩
                let f := f.setDsAttr "projection" "semi_major_axis" (.rat 6378137)
                let f := f.setDsAttr "projection" "inverse_flattening"
                  (.rat (298257223563 / 1000000000))
                let f := f.setDsAttr "projection" "ellipsoid" (.str "WGS84")
                let f := f.setDsAttr "projection" "epsg_code" (.nat 4326)
                let f := f.setDsAttr "projection" "spatial_ref" (.str wgs84Wkt)
                let f := f.setDsAttr "projection" "grid_mapping_name"
                  (.str "latitude_longitude")
                let f := f.setDsAttr "projection" "longitude_of_prime_meridian" (.rat 0)
                let f := f.setDsAttr "lon" "standard_name" (.str "longitude")
                let f := f.setDsAttr "lon" "units" (.str "degrees_east")
                let f := f.setDsAttr "lat" "standard_name" (.str "latitude")
                let f := f.setDsAttr "lat" "units" (.str "degrees_north")
                let f := f.setDsAttr "hgt" "standard_name" (.str "height")
                let f := f.setDsAttr "hgt" "units" (.str "m")
                if chunkFits (xchunks ++ [3]) (in_shape ++ [3]) then
                  let f := f.addDs "Rays_SP"
                    ⟨in_shape ++ [3], List.replicate ((in_shape ++ [3]).prod) 0, "f8", []⟩
                  if chunkFits xchunks in_shape then
                    let f := f.addDs "Rays_len"
                      ⟨in_shape, List.replicate in_shape.prod 0, "f8", []⟩
                    if chunkFits (xchunks ++ [3]) (in_shape ++ [3]) then
                      let f := f.addDs "Rays_SLV"
                        ⟨in_shape ++ [3], List.replicate ((in_shape ++ [3]).prod) 0, "f8", []⟩
                      let f := f.setDsAttr "LOS" "grid_mapping" (.str "projection")
                      let f := f.setDsAttr "Rays_SP" "grid_mapping" (.str "projection")
                      let f := f.setDsAttr "Rays_len" "grid_mapping" (.str "projection")
                      let f := f.setDsAttr "Rays_SLV" "grid_mapping" (.str "projection")
                      let f := f.setFAttr "NumRays" (.nat (lons.shape.headD 0))
                      .ok f
                    else .error (.datasetError "Rays_SLV", some f)
                  else .error (.datasetError "Rays_len", some f)
                else .error (.datasetError "Rays_SP", some f)
            else .error (.datasetError "LOS", some f)
        else .error (.datasetError "hgt", some f)
      else .error (.datasetError "lat", some f)

/-- The ok payload of an Except, when there is one. -/
def okPart {ε α : Type} (e : Except ε α) : Option α :=
  match e with
  | .ok a => some a
  | .error _ => none

/-- What a writePnts2HDF5 call left on disk when it failed. -/
def leftoverPart {α : Type} (e : Except (WriteError × Option H5) α) : Option H5 :=
  match e with
  | .error (_, g) => g
  | .ok _ => none

/-- Concrete lat/lon/height arrays of shape (5,) used as a failing input. -/
def lats5 : NdArray := ⟨[5], [1, 2, 3, 4, 5]⟩

/-- Concrete longitude array of shape (5,). -/
def lons5 : NdArray := ⟨[5], [10, 20, 30, 40, 50]⟩

/-- Concrete height array of shape (5,). -/
def hts5 : NdArray := ⟨[5], [0, 0, 0, 0, 0]⟩

/-- A LOS array of shape (7, 3), which disagrees with the (5,) point arrays. -/
def los73 : NdArray := ⟨[7, 3], List.replicate 21 1⟩

/-- A LOS array of 7 elements: 7 is not a multiple of 3, so reshape(-1,3)
fails inside checkLOS before any row count is compared. -/
def los7 : NdArray := ⟨[7], [1, 0, 0, 1, 0, 0, 1]⟩

/-- A concrete 3 x 4 latitude grid. -/
def lats34 : NdArray := ⟨[3, 4], [31, 32, 33, 34, 35, 36, 37, 38, 39, 40, 41, 42]⟩

/-- A concrete 3 x 4 longitude grid. -/
def lons34 : NdArray := ⟨[3, 4], [-120, -119, -118, -117, -116, -115, -114, -113, -112, -111, -110, -109]⟩

/-- A concrete 3 x 4 height grid. -/
def hgts34 : NdArray := ⟨[3, 4], [0, 10, 20, 30, 40, 50, 60, 70, 80, 90, 100, 110]⟩

/-- A per-pixel LOS array in the schema shape (3, 4, 3). -/
def los343 : NdArray := ⟨[3, 4, 3], List.replicate 36 1⟩

/-- A 36-element LOS array of shape (4, 3, 3): checkLOS accepts it for
12 points (36 = 12 * 3), but its shape is not pixel-shape + (3,). -/
def los433 : NdArray := ⟨[4, 3, 3], List.replicate 36 1⟩

/-- The file written for the 3 x 4 grid with the (4, 3, 3) LOS array and
the explicit valid chunk shape (1, 1); the auto-chunk helper is unused
on this input since the chunk shape is supplied. -/
def f433 : H5 :=
  (okPart (writePnts2HDF5 (fun s => s) lats34 lons34 hgts34 (.arr los433)
    (some [1, 1]))).getD ⟨[], []⟩

/-- The file written for the 3 x 4 grid with the (3, 4, 3) LOS array and
the explicit valid chunk shape (1, 1). -/
def f343 : H5 :=
  (okPart (writePnts2HDF5 (fun s => s) lats34 lons34 hgts34 (.arr los343)
    (some [1, 1]))).getD ⟨[], []⟩

/-- Looking up a name that differs from a freshly appended entry. -/
theorem lookup_append_right_ne (l : List (String × Dset)) (nm n : String)
    (d : Dset) (h : n ≠ nm) : (l ++ [(nm, d)]).lookup n = l.lookup n := by
  induction l with
  | nil =>
      simp only [List.nil_append, List.lookup]
      rw [beq_eq_false_iff_ne.mpr h]
  | cons p l ih =>
      simp only [List.cons_append, List.append_eq, List.lookup, ih]

/-- Looking up a freshly appended entry whose name was not present. -/
theorem lookup_append_right_self (l : List (String × Dset)) (nm : String)
    (d : Dset) (h : l.lookup nm = none) :
    (l ++ [(nm, d)]).lookup nm = some d := by
  induction l with
  | nil =>
      simp only [List.nil_append, List.lookup, beq_self_eq_true]
  | cons p l ih =>
      simp only [List.lookup] at h
      simp only [List.cons_append, List.lookup]
      cases hb : nm == p.1 with
      | true =>
          rw [hb] at h
          exact Option.noConfusion h
      | false =>
          rw [hb] at h
          exact ih h

/-- Updating the entry called nm does not change other lookups. -/
theorem lookup_map_upd_ne (upd : Dset → Dset) (l : List (String × Dset))
    (nm n : String) (h : n ≠ nm) :
    (l.map (fun p => if p.1 = nm then (p.1, upd p.2) else p)).lookup n =
      l.lookup n := by
  induction l with
  | nil => rfl
  | cons p l ih =>
      by_cases hp : p.1 = nm
      · have hn : (n == p.1) = false := beq_eq_false_iff_ne.mpr (by rw [hp]; exact h)
        rw [List.map_cons, if_pos hp]
        simp only [List.lookup, hn, ih]
      · rw [List.map_cons, if_neg hp]
        simp only [List.lookup, ih]

/-- Updating the entry called nm maps its looked-up value. -/
theorem lookup_map_upd_self (upd : Dset → Dset) (l : List (String × Dset))
    (nm : String) :
    (l.map (fun p => if p.1 = nm then (p.1, upd p.2) else p)).lookup nm =
      (l.lookup nm).map upd := by
  induction l with
  | nil => rfl
  | cons p l ih =>
      by_cases hp : p.1 = nm
      · have hb : (nm == p.1) = true := by rw [hp]; exact beq_self_eq_true nm
        rw [List.map_cons, if_pos hp]
        simp only [List.lookup, hb]
        rfl
      · have hb : (nm == p.1) = false :=
          beq_eq_false_iff_ne.mpr (fun hh => hp hh.symm)
        rw [List.map_cons, if_neg hp]
        simp only [List.lookup, hb, ih]

/-- The empty file has no datasets. -/
theorem H5.ds_mk_nil (n : String) : (H5.mk [] []).ds n = none := rfl

/-- File-level attributes do not affect dataset lookup. -/
theorem H5.ds_setFAttr (f : H5) (k : String) (v : AttrVal) (n : String) :
    (f.setFAttr k v).ds n = f.ds n := rfl

/-- Adding a dataset leaves differently named lookups unchanged. -/
theorem H5.ds_addDs_ne (f : H5) (nm : String) (d : Dset) (n : String)
    (h : n ≠ nm) : (f.addDs nm d).ds n = f.ds n :=
  lookup_append_right_ne f.dsets nm n d h

/-- Adding a dataset under a fresh name makes it retrievable. -/
theorem H5.ds_addDs_self (f : H5) (nm : String) (d : Dset)
    (h : f.ds nm = none) : (f.addDs nm d).ds nm = some d :=
  lookup_append_right_self f.dsets nm d h

/-- Setting an attribute on one dataset leaves the others unchanged. -/
theorem H5.ds_setDsAttr_ne (f : H5) (nm k : String) (v : AttrVal) (n : String)
    (h : n ≠ nm) : (f.setDsAttr nm k v).ds n = f.ds n :=
  lookup_map_upd_ne (fun d => ⟨d.shape, d.data, d.dtype, d.attrs ++ [(k, v)]⟩)
    f.dsets nm n h

/-- Setting an attribute on a dataset appends to its attribute list. -/
theorem H5.ds_setDsAttr_self (f : H5) (nm k : String) (v : AttrVal) :
    (f.setDsAttr nm k v).ds nm = (f.ds nm).map
      (fun d => ⟨d.shape, d.data, d.dtype, d.attrs ++ [(k, v)]⟩) :=
  lookup_map_upd_self (fun d => ⟨d.shape, d.data, d.dtype, d.attrs ++ [(k, v)]⟩)
    f.dsets nm

/-- Extending a valid chunk layout and its data shape by the same
positive trailing dimension keeps the layout valid: this is how the
x.chunks + (3,) layouts of the LOS and ray datasets validate. -/
theorem chunkFits_append (c s : List ℕ) (n : ℕ) (hn : 0 < n)
    (h : chunkFits c s = true) : chunkFits (c ++ [n]) (s ++ [n]) = true := by
  unfold chunkFits at h ⊢
  simp only [Bool.and_eq_true] at h
  obtain ⟨⟨hne, hlen⟩, hall⟩ := h
  have hlen2 : c.length = s.length := by
    simpa using hlen
  simp only [Bool.and_eq_true]
  refine ⟨⟨?_, ?_⟩, ?_⟩
  · simp
  · simp [hlen2]
  · rw [List.zip_append hlen2, List.all_append]
    simp only [Bool.and_eq_true]
    exact ⟨hall, by simp [hn]⟩

/-- C9: converting the zero ENU vector at any geodetic origin equals
converting the origin itself: enu2ecef(0,0,0,lat0,lon0,h0) equals
lla2ecef(lat0,lon0,h0), for every choice of the trigonometric helpers
and of the external geodetic transform (zero-offset identity). -/
theorem enu2ecef_zero_offset (sind cosd : ℚ → ℚ)
    (lla2ecef : ℚ → ℚ → ℚ → ℚ × ℚ × ℚ) (lat0 lon0 h0 : ℚ) :
    enu2ecef sind cosd lla2ecef 0 0 0 lat0 lon0 h0 = lla2ecef lat0 lon0 h0 := by
  simp [enu2ecef]

/-- C3: the claim says checkShapes must raise unless the point shapes all
agree and the LOS shape (zenith aside) matches them. The code instead
raises only when the point-shape test fails while the LOS test passes:
with lats, lons, hts all of shape (5,) and a LOS array of shape (7, 3),
the shapes disagree yet checkShapes returns without error. -/
theorem checkShapes_inverted_guard :
    checkShapes (.arr los73) lats5 lons5 hts5 = .ok () ∧
      los73.shape.dropLast ≠ hts5.shape := by
  constructor
  · rfl
  · decide

/-- C7 counterexample: the claim says a non-zenith LOS is reshaped to
(nPoints, 3) and returned, with a count-mismatch error exactly when the
row count differs from nPoints. At a 7-element LOS with nPoints = 8 the
code instead fails with the generic reshape error: it neither returns a
reshaped array nor raises the count-mismatch error. -/
theorem checkLOS_seven_not_countMismatch :
    checkLOS (.arr los7) 8 = .error .reshapeError ∧
      ∀ found expected, LosError.reshapeError ≠ LosError.countMismatch found expected := by
  constructor
  · rfl
  · intro found expected h
    exact LosError.noConfusion h

/-- C7 (amended): checkLOS returns the zenith sentinel unchanged; a
non-zenith LOS whose element count is a multiple of 3 is reshaped to
(count/3, 3) and returned when count/3 = nPoints, and raises the
count-mismatch error exactly when count/3 differs from nPoints; a LOS
whose element count is not a multiple of 3 raises a generic reshape
error before the count comparison. -/
theorem checkLOS_spec (los : LOS) (Npts : ℕ) :
    (los = .zenith → checkLOS los Npts = .ok .zenith) ∧
    (∀ a : NdArray, los = .arr a → a.size % 3 = 0 →
      (a.size / 3 = Npts → checkLOS los Npts = .ok (.arr ⟨[a.size / 3, 3], a.data⟩)) ∧
      (a.size / 3 ≠ Npts →
        checkLOS los Npts = .error (.countMismatch (a.size / 3) Npts))) ∧
    (∀ a : NdArray, los = .arr a → a.size % 3 ≠ 0 →
      checkLOS los Npts = .error .reshapeError) := by
  refine ⟨?_, ?_, ?_⟩
  · rintro rfl; rfl
  · rintro a rfl h3
    constructor
    · intro hN
      simp [checkLOS, h3, hN]
    · intro hN
      simp [checkLOS, h3, hN]
  · rintro a rfl h3
    simp [checkLOS, h3]

/-- C7 amended, exercised at concrete inputs: a 24-element LOS with
nPoints = 8 is reshaped to (8, 3) and returned, and a 21-element LOS
with nPoints = 8 raises the count-mismatch error. -/
theorem checkLOS_spec_witness :
    checkLOS (.arr ⟨[24], List.replicate 24 1⟩) 8 =
      .ok (.arr ⟨[8, 3], List.replicate 24 1⟩) ∧
    checkLOS (.arr ⟨[7, 3], List.replicate 21 1⟩) 8 =
      .error (.countMismatch 7 8) := by
  constructor
  · exact ((checkLOS_spec (.arr ⟨[24], List.replicate 24 1⟩) 8).2.1
      ⟨[24], List.replicate 24 1⟩ rfl (by decide)).1 (by decide)
  · exact ((checkLOS_spec (.arr ⟨[7, 3], List.replicate 21 1⟩) 8).2.1
      ⟨[7, 3], List.replicate 21 1⟩ rfl (by decide)).2 (by decide)

/-- C10: for a non-zenith LOS whose element count is not a multiple of 3,
checkLOS fails with the generic reshape error, never with the documented
count-mismatch RuntimeError; the count-mismatch error is reachable only
when the element count is an exact multiple of 3. -/
theorem checkLOS_reshape_before_count (a : NdArray) (Npts : ℕ) :
    (a.size % 3 ≠ 0 → checkLOS (.arr a) Npts = .error .reshapeError) ∧
    (∀ found expected,
      checkLOS (.arr a) Npts = .error (.countMismatch found expected) →
        a.size % 3 = 0) := by
  constructor
  · intro h3
    simp [checkLOS, h3]
  · intro found expected h
    by_contra h3
    simp [checkLOS, h3] at h

/-- C10 exercised at a concrete input: a 7-element LOS yields the reshape
error, and 7 is indeed not a multiple of 3. -/
theorem checkLOS_reshape_before_count_witness :
    checkLOS (.arr los7) 2 = .error .reshapeError :=
  (checkLOS_reshape_before_count los7 2).1 (by decide)

/-- The Npts of line 528 agrees with the length of np.arange(0, max_len,
stepSize) whenever the step is positive: the floor plus a remainder
indicator is exactly the ceiling of the quotient. -/
theorem raysNpts_eq_ceil (max_len stepSize : ℚ) (h2 : 0 < stepSize) :
    raysNpts max_len stepSize = ⌈max_len / stepSize⌉ := by
  have hs : stepSize ≠ 0 := ne_of_gt h2
  have hml : stepSize * (max_len / stepSize) = max_len := by
    field_simp
  have hrem : max_len - stepSize * ⌊max_len / stepSize⌋ =
      stepSize * Int.fract (max_len / stepSize) := by
    rw [Int.fract]
    rw [mul_sub, hml]
  unfold raysNpts
  rw [hrem]
  by_cases hf : Int.fract (max_len / stepSize) = 0
  · have hx : max_len / stepSize = (⌊max_len / stepSize⌋ : ℚ) := by
      have := Int.self_sub_floor (max_len / stepSize)
      rw [hf] at this
      linarith
    have hceil : ⌈max_len / stepSize⌉ = ⌊max_len / stepSize⌋ := by
      conv_lhs => rw [hx]
      exact Int.ceil_intCast _
    rw [hf, mul_zero, hceil]
    simp
  · have hcond : stepSize * Int.fract (max_len / stepSize) ≠ 0 :=
      mul_ne_zero hs hf
    rw [if_pos hcond]
    have hfr0 : 0 < Int.fract (max_len / stepSize) :=
      lt_of_le_of_ne (Int.fract_nonneg _) (Ne.symm hf)
    have hfl : (⌊max_len / stepSize⌋ : ℚ) < max_len / stepSize := by
      have := Int.self_sub_floor (max_len / stepSize)
      linarith
    have hfu : max_len / stepSize < (⌊max_len / stepSize⌋ : ℚ) + 1 := by
      have h1 := Int.fract_lt_one (max_len / stepSize)
      have := Int.self_sub_floor (max_len / stepSize)
      linarith
    symm
    rw [Int.ceil_eq_iff]
    constructor
    · push_cast
      linarith
    · push_cast
      linarith

/-- For positive max_len and stepSize the guard in makePoints1D and
makePoints3D holds: the basespace length equals Npts. -/
theorem arange0_length_eq_raysNpts (max_len stepSize : ℚ)
    (h1 : 0 < max_len) (h2 : 0 < stepSize) :
    ((arange0 max_len stepSize).length : ℤ) = raysNpts max_len stepSize := by
  rw [raysNpts_eq_ceil max_len stepSize h2]
  simp only [arange0, List.length_map, List.length_range]
  rw [Int.toNat_of_nonneg]
  exact le_of_lt (Int.ceil_pos.mpr (div_pos h1 h2))

/-- C2: for positive max_len and stepSize, makePoints1D returns a ray of
exactly ⌊max_len/stepSize⌋ + (1 if the remainder is nonzero else 0)
samples per component; sample k of component k3 is
Rays_SP k3 + (k * stepSize) * Rays_SLV k3, the first sample is the start
position, and every sample parameter k * stepSize stays strictly below
max_len (half-open sampling). -/
theorem makePoints1D_spec (max_len stepSize : ℚ)
    (Rays_SP Rays_SLV : Fin 3 → ℚ) (h1 : 0 < max_len) (h2 : 0 < stepSize) :
    ∃ (N : ℕ) (r : Fin 3 → List ℚ),
      makePoints1D max_len Rays_SP Rays_SLV stepSize = some r ∧
      (N : ℤ) = ⌊max_len / stepSize⌋ +
        (if max_len - stepSize * ⌊max_len / stepSize⌋ ≠ 0 then 1 else 0) ∧
      (∀ k3, r k3 = (List.range N).map
        (fun k : ℕ => Rays_SP k3 + ((k : ℚ) * stepSize) * Rays_SLV k3)) ∧
      (∀ k3, (r k3).length = N) ∧
      (∀ k3, (r k3).head? = some (Rays_SP k3)) ∧
      (∀ k : ℕ, k < N → (k : ℚ) * stepSize < max_len) := by
  have hg := arange0_length_eq_raysNpts max_len stepSize h1 h2
  have hNpos : 0 < (⌈max_len / stepSize⌉).toNat := by
    rw [Int.lt_toNat]
    exact_mod_cast Int.ceil_pos.mpr (div_pos h1 h2)
  refine ⟨(⌈max_len / stepSize⌉).toNat,
    fun k3 => (arange0 max_len stepSize).map
      (fun b => Rays_SP k3 + b * Rays_SLV k3), ?_, ?_, ?_, ?_, ?_, ?_⟩
  · unfold makePoints1D
    rw [if_pos hg]
  · show ((⌈max_len / stepSize⌉).toNat : ℤ) = raysNpts max_len stepSize
    rw [raysNpts_eq_ceil max_len stepSize h2]
    exact Int.toNat_of_nonneg (le_of_lt (Int.ceil_pos.mpr (div_pos h1 h2)))
  · intro k3
    simp only [arange0, List.map_map]
    rfl
  · intro k3
    simp [arange0]
  · intro k3
    obtain ⟨m, hm⟩ := Nat.exists_eq_succ_of_ne_zero (Nat.pos_iff_ne_zero.mp hNpos)
    unfold arange0
    rw [hm, List.range_succ_eq_map]
    simp
  · intro k hk
    have hkc : (k : ℤ) < ⌈max_len / stepSize⌉ := Int.lt_toNat.mp hk
    have hklt : (k : ℚ) < max_len / stepSize := by
      have := Int.lt_ceil.mp hkc
      exact_mod_cast this
    exact (lt_div_iff₀ h2).mp hklt

/-- C2 exercised at max_len = 5, stepSize = 2 with unit start and look
vectors: three samples at parameters 0, 2, 4, all below 5. -/
theorem makePoints1D_spec_witness :
    ∃ (N : ℕ) (r : Fin 3 → List ℚ),
      makePoints1D 5 (fun _ => (1 : ℚ)) (fun _ => (1 : ℚ)) 2 = some r ∧
      (N : ℤ) = ⌊(5 : ℚ) / 2⌋ +
        (if (5 : ℚ) - 2 * ⌊(5 : ℚ) / 2⌋ ≠ 0 then 1 else 0) ∧
      (∀ k3, r k3 = (List.range N).map
        (fun k : ℕ => 1 + ((k : ℚ) * 2) * 1)) ∧
      (∀ k3, (r k3).length = N) ∧
      (∀ k3, (r k3).head? = some 1) ∧
      (∀ k : ℕ, k < N → (k : ℚ) * 2 < 5) :=
  makePoints1D_spec 5 2 (fun _ => 1) (fun _ => 1) (by norm_num) (by norm_num)

/-- C1: for positive max_len and stepSize, the batched sampler
makePoints3D succeeds and yields, at every pixel (k1, k2, k2a), exactly
the ray that makePoints1D yields when invoked with that pixel's own
start position and look vector (batch/scalar equivalence). -/
theorem makePoints3D_matches_1D {nrow ncol nz : ℕ} (max_len stepSize : ℚ)
    (Rays_SP Rays_SLV : Fin nrow → Fin ncol → Fin nz → Fin 3 → ℚ)
    (h1 : 0 < max_len) (h2 : 0 < stepSize) :
    ∃ rays, makePoints3D max_len Rays_SP Rays_SLV stepSize = some rays ∧
      ∀ k1 k2 k2a,
        makePoints1D max_len (Rays_SP k1 k2 k2a) (Rays_SLV k1 k2 k2a) stepSize
          = some (rays k1 k2 k2a) := by
  have hg := arange0_length_eq_raysNpts max_len stepSize h1 h2
  refine ⟨fun k1 k2 k2a k3 => (arange0 max_len stepSize).map
    (fun b => Rays_SP k1 k2 k2a k3 + b * Rays_SLV k1 k2 k2a k3), ?_, ?_⟩
  · unfold makePoints3D
    rw [if_pos hg]
  · intro k1 k2 k2a
    unfold makePoints1D
    rw [if_pos hg]

/-- C1 exercised on a 1 x 1 x 1 grid with max_len = 5, stepSize = 2. -/
theorem makePoints3D_matches_1D_witness :
    ∃ rays, @makePoints3D 1 1 1 5
        (fun _ _ _ _ => (2 : ℚ)) (fun _ _ _ _ => (1 : ℚ)) 2 = some rays ∧
      ∀ k1 k2 k2a,
        makePoints1D 5 (fun _ => (2 : ℚ)) (fun _ => (1 : ℚ)) 2
          = some (rays k1 k2 k2a) :=
  makePoints3D_matches_1D 5 2 (fun _ _ _ _ => 2) (fun _ _ _ _ => 1)
    (by norm_num) (by norm_num)


set_option maxHeartbeats 2000000 in
/-- C4 counterexample: the claim says writing a 3 x 4 grid with the
literal zenith LOS sentinel succeeds. It does not: checkLOS passes the
sentinel through and the lon, lat and hgt datasets are created (h5py
auto chunking of so small a grid yields its full (3, 4) shape, which
the stand-in auto-chunk helper reproduces), but los.astype at
utilFcns.py line 469 has no meaning on the sentinel, so the writer
fails instead of producing a file. -/
theorem writePnts_zenith_write_fails :
    okPart (writePnts2HDF5 (fun s => s) lats34 lons34 hgts34 LOS.zenith none) =
      none := rfl

set_option maxHeartbeats 2000000 in
/-- C4 (amended): writing a QueryPointDataset for a 3 x 4 grid succeeds
when the LOS is supplied as a per-pixel vector array of shape (3, 4, 3)
(such as the unit up-vectors realizing a zenith geometry) and an
explicit chunk shape valid for (3, 4) is supplied; reading the file
back then yields lat/lon/hgt data identical to the input, a projection
dataset equal to 4326, and per-field shapes (3, 4) or (3, 4, 3) as in
the schema. With the default chunkSize=None the writer instead fails at
the ChunkSize attribute, which cannot store a Python None, after the
lon, lat, hgt and LOS datasets were created; and with the literal
zenith sentinel it fails at los.astype. -/
theorem writePnts_grid34_roundtrip (autoChunk : List ℕ → List ℕ)
    (lats lons hgts a : NdArray) (c : List ℕ)
    (hlat : lats.shape = [3, 4]) (hlon : lons.shape = [3, 4])
    (hhgt : hgts.shape = [3, 4]) (ha : a.shape = [3, 4, 3])
    (hc : chunkFits c [3, 4] = true) :
    (∃ f, writePnts2HDF5 autoChunk lats lons hgts (.arr a) (some c) = .ok f ∧
      (f.ds "lat").map Dset.data = some lats.data ∧
      (f.ds "lon").map Dset.data = some lons.data ∧
      (f.ds "hgt").map Dset.data = some hgts.data ∧
      (f.ds "projection").map Dset.data = some [4326] ∧
      (f.ds "lat").map Dset.shape = some [3, 4] ∧
      (f.ds "lon").map Dset.shape = some [3, 4] ∧
      (f.ds "hgt").map Dset.shape = some [3, 4] ∧
      (f.ds "LOS").map Dset.shape = some [3, 4, 3] ∧
      (f.ds "Rays_SP").map Dset.shape = some [3, 4, 3] ∧
      (f.ds "Rays_len").map Dset.shape = some [3, 4] ∧
      (f.ds "Rays_SLV").map Dset.shape = some [3, 4, 3]) ∧
    (chunkFits (autoChunk [3, 4]) [3, 4] = true →
      ∃ g, writePnts2HDF5 autoChunk lats lons hgts (.arr a) none =
          .error (.nullAttrError, some g) ∧
        (g.ds "LOS").map Dset.shape = some [3, 4, 3]) := by
  obtain ⟨lsh, ld⟩ := lats
  obtain ⟨osh, od⟩ := lons
  obtain ⟨hsh, hd⟩ := hgts
  obtain ⟨ash, ad⟩ := a
  have e1 : lsh = [3, 4] := hlat
  have e2 : osh = [3, 4] := hlon
  have e3 : hsh = [3, 4] := hhgt
  have e4 : ash = [3, 4, 3] := ha
  subst e1
  subst e2
  subst e3
  subst e4
  have hCL : checkLOS (.arr ⟨[3, 4, 3], ad⟩) (NdArray.size ⟨[3, 4], ld⟩) =
      .ok (.arr ⟨[12, 3], ad⟩) := by
    simp [checkLOS, NdArray.size]
  have hc3 : chunkFits (c ++ [3]) [3, 4, 3] = true := by
    simpa using chunkFits_append c [3, 4] 3 (by norm_num) hc
  constructor
  · unfold writePnts2HDF5
    rw [hCL]
    simp only [lonChunks, hc, hc3, NdArray.size, List.cons_append,
      List.nil_append, eq_self_iff_true, if_true]
    refine ⟨_, rfl, ?_, ?_, ?_, ?_, ?_, ?_, ?_, ?_, ?_, ?_, ?_⟩ <;>
      simp [H5.ds_mk_nil, H5.ds_setFAttr, H5.ds_addDs_ne, H5.ds_addDs_self,
        H5.ds_setDsAttr_ne, H5.ds_setDsAttr_self]
  · intro hauto
    have hauto3 : chunkFits (autoChunk [3, 4] ++ [3]) [3, 4, 3] = true := by
      simpa using chunkFits_append (autoChunk [3, 4]) [3, 4] 3 (by norm_num) hauto
    unfold writePnts2HDF5
    rw [hCL]
    simp only [lonChunks, hauto, hauto3, NdArray.size, List.isEmpty_cons,
      List.cons_append, List.nil_append, eq_self_iff_true, if_true,
      Bool.false_eq_true, if_false]
    refine ⟨_, rfl, ?_⟩
    simp [H5.ds_mk_nil, H5.ds_setFAttr, H5.ds_addDs_ne, H5.ds_addDs_self,
      H5.ds_setDsAttr_ne, H5.ds_setDsAttr_self]

set_option maxHeartbeats 2000000 in
/-- C4 amended, exercised at the concrete 3 x 4 grid with the (3, 4, 3)
unit look-vector array and the explicit valid chunk shape (1, 1), and
for the default-chunk failure with the stand-in auto-chunk helper. -/
theorem writePnts_grid34_roundtrip_witness :
    (∃ f, writePnts2HDF5 (fun s => s) lats34 lons34 hgts34 (.arr los343)
        (some [1, 1]) = .ok f ∧
      (f.ds "lat").map Dset.data = some lats34.data ∧
      (f.ds "lon").map Dset.data = some lons34.data ∧
      (f.ds "hgt").map Dset.data = some hgts34.data ∧
      (f.ds "projection").map Dset.data = some [4326] ∧
      (f.ds "lat").map Dset.shape = some [3, 4] ∧
      (f.ds "lon").map Dset.shape = some [3, 4] ∧
      (f.ds "hgt").map Dset.shape = some [3, 4] ∧
      (f.ds "LOS").map Dset.shape = some [3, 4, 3] ∧
      (f.ds "Rays_SP").map Dset.shape = some [3, 4, 3] ∧
      (f.ds "Rays_len").map Dset.shape = some [3, 4] ∧
      (f.ds "Rays_SLV").map Dset.shape = some [3, 4, 3]) ∧
    (∃ g, writePnts2HDF5 (fun s => s) lats34 lons34 hgts34 (.arr los343) none =
        .error (.nullAttrError, some g) ∧
      (g.ds "LOS").map Dset.shape = some [3, 4, 3]) :=
  ⟨(writePnts_grid34_roundtrip (fun s => s) lats34 lons34 hgts34 los343 [1, 1]
      rfl rfl rfl rfl (by decide)).1,
   (writePnts_grid34_roundtrip (fun s => s) lats34 lons34 hgts34 los343 [1, 1]
      rfl rfl rfl rfl (by decide)).2 (by decide)⟩

set_option maxHeartbeats 2000000 in
/-- C5 counterexample: a (4, 3, 3) LOS array for a 3 x 4 grid passes
validation (36 elements reshape to the 12 expected rows), and with the
explicit chunk shape (1, 1) every chunk layout fits the shape it is
checked against, so the write runs to completion; yet the persisted LOS
dataset keeps shape (4, 3, 3), which is not pixel-shape + (3,) =
(3, 4, 3): the reshaped result of checkLOS is discarded by the
writer. -/
theorem writePnts_los_shape_counterexample :
    checkLOS (.arr los433) lats34.size = .ok (.arr ⟨[12, 3], los433.data⟩) ∧
    ((okPart (writePnts2HDF5 (fun s => s) lats34 lons34 hgts34 (.arr los433)
        (some [1, 1]))).bind
      (fun f => (f.ds "LOS").map Dset.shape)) = some [4, 3, 3] ∧
    ([4, 3, 3] : List ℕ) ≠ [3, 4, 3] := by
  refine ⟨rfl, rfl, by decide⟩

set_option maxHeartbeats 2000000 in
/-- C5 (amended): for every non-zenith LOS accepted by validation whose
write completes, the persisted LOS dataset has exactly the shape of the
LOS array the caller passed in; it equals pixel-shape + (3,) only when
the input already has that shape, because validation constrains only
the element count. -/
theorem writePnts_los_shape_as_given (autoChunk : List ℕ → List ℕ)
    (lats lons hgts a : NdArray) (chunk : Option (List ℕ)) (f : H5)
    (h : writePnts2HDF5 autoChunk lats lons hgts (.arr a) chunk = .ok f) :
    (f.ds "LOS").map Dset.shape = some a.shape := by
  unfold writePnts2HDF5 at h
  cases hc : checkLOS (.arr a) lats.size with
  | error e =>
      rw [hc] at h
      exact Except.noConfusion h
  | ok v =>
      simp only [hc] at h
      repeat (split at h <;> try exact Except.noConfusion h)
      have hf := Except.ok.inj h
      subst hf
      simp [H5.ds_mk_nil, H5.ds_setFAttr, H5.ds_addDs_ne, H5.ds_addDs_self,
        H5.ds_setDsAttr_ne, H5.ds_setDsAttr_self]

set_option maxHeartbeats 2000000 in
/-- C5 amended, exercised at the (4, 3, 3) LOS array for the 3 x 4
grid with chunk shape (1, 1): the stored shape is the input shape. -/
theorem writePnts_los_shape_as_given_witness :
    (f433.ds "LOS").map Dset.shape = some [4, 3, 3] :=
  writePnts_los_shape_as_given (fun s => s) lats34 lons34 hgts34 los433
    (some [1, 1]) f433 rfl

set_option maxHeartbeats 2000000 in
/-- C6 counterexample: the claim says that on any failure nothing
observable is left at the target path. With the zenith sentinel and the
default chunkSize the call fails at los.astype, after the file was
opened and the lon, lat and hgt datasets were created (auto chunking of
the tiny (3, 4) grid yields its full shape, which the stand-in helper
reproduces): the failed call leaves a partial file whose lat dataset,
holding the full input data, is observable. -/
theorem writePnts_partial_file_observable :
    okPart (writePnts2HDF5 (fun s => s) lats34 lons34 hgts34 LOS.zenith none) =
      none ∧
    ((leftoverPart (writePnts2HDF5 (fun s => s) lats34 lons34 hgts34 LOS.zenith
        none)).bind
      (fun g => g.ds "lat")).map Dset.data = some lats34.data := ⟨rfl, rfl⟩

set_option maxHeartbeats 2000000 in
/-- C6 (amended): validation failures in checkLOS are raised before the
output file is opened and leave nothing written; but whenever the chunk
layout lets the lon, lat and hgt creations go through, a failure after
the open (the zenith sentinel reaching los.astype) leaves a partially
written file at the target path containing exactly those datasets — the
writer writes in place and does not guarantee all-or-nothing
visibility. -/
theorem writePnts_partial_write_behavior (autoChunk : List ℕ → List ℕ)
    (lats lons hgts : NdArray) (chunk : Option (List ℕ)) :
    (∀ (a : NdArray) (e : LosError), checkLOS (.arr a) lats.size = .error e →
      writePnts2HDF5 autoChunk lats lons hgts (.arr a) chunk =
        .error (.losCheck e, none)) ∧
    (∀ xchunks, lonChunks autoChunk chunk lons.shape = some xchunks →
      chunkFits xchunks lats.shape = true →
      chunkFits xchunks hgts.shape = true →
      ∃ g, writePnts2HDF5 autoChunk lats lons hgts .zenith chunk =
          .error (.attributeError, some g) ∧
        g.ds "lon" = some ⟨lons.shape, lons.data, "f8", []⟩ ∧
        g.ds "lat" = some ⟨lats.shape, lats.data, "f8", []⟩ ∧
        g.ds "hgt" = some ⟨hgts.shape, hgts.data, "f8", []⟩) := by
  constructor
  · intro a e hc
    unfold writePnts2HDF5
    rw [hc]
  · intro xchunks hx h1 h2
    unfold writePnts2HDF5
    simp only [checkLOS, hx, h1, h2, eq_self_iff_true, if_true]
    refine ⟨_, rfl, ?_, ?_, ?_⟩ <;>
      simp [H5.ds_mk_nil, H5.ds_setFAttr, H5.ds_addDs_ne, H5.ds_addDs_self,
        H5.ds_setDsAttr_ne, H5.ds_setDsAttr_self]

set_option maxHeartbeats 2000000 in
/-- C6 amended, exercised: a 7-element LOS fails validation for 5 points
with nothing written, and a zenith write on (5,)-shaped arrays under
auto chunking leaves exactly lon, lat and hgt in the partial file. -/
theorem writePnts_partial_write_behavior_witness :
    writePnts2HDF5 (fun s => s) lats5 lons5 hts5 (.arr los7) none =
      .error (.losCheck .reshapeError, none) ∧
    ∃ g, writePnts2HDF5 (fun s => s) lats5 lons5 hts5 .zenith none =
        .error (.attributeError, some g) ∧
      g.ds "lon" = some ⟨lons5.shape, lons5.data, "f8", []⟩ ∧
      g.ds "lat" = some ⟨lats5.shape, lats5.data, "f8", []⟩ ∧
      g.ds "hgt" = some ⟨hts5.shape, hts5.data, "f8", []⟩ :=
  ⟨(writePnts_partial_write_behavior (fun s => s) lats5 lons5 hts5 none).1
      los7 .reshapeError rfl,
   (writePnts_partial_write_behavior (fun s => s) lats5 lons5 hts5 none).2
      [5] rfl (by decide) (by decide)⟩

set_option maxHeartbeats 2000000 in
/-- C8: every successful write persists the placeholder datasets Rays_SP
of shape pixel-shape + (3,), Rays_len of shape pixel-shape and Rays_SLV
of shape pixel-shape + (3,), all of dtype 64-bit float, together with a
scalar integer projection dataset equal to 4326 carrying the WGS84
ellipsoid attributes: semi-major axis 6378137.0 and inverse flattening
298.257223563. -/
theorem writePnts_placeholder_schema (autoChunk : List ℕ → List ℕ)
    (lats lons hgts : NdArray) (los : LOS) (chunk : Option (List ℕ)) (f : H5)
    (h : writePnts2HDF5 autoChunk lats lons hgts los chunk = .ok f) :
    f.ds "Rays_SP" = some ⟨lats.shape ++ [3],
        List.replicate ((lats.shape ++ [3]).prod) 0, "f8",
        [("grid_mapping", .str "projection")]⟩ ∧
    f.ds "Rays_len" = some ⟨lats.shape, List.replicate lats.shape.prod 0, "f8",
        [("grid_mapping", .str "projection")]⟩ ∧
    f.ds "Rays_SLV" = some ⟨lats.shape ++ [3],
        List.replicate ((lats.shape ++ [3]).prod) 0, "f8",
        [("grid_mapping", .str "projection")]⟩ ∧
    ∃ p, f.ds "projection" = some p ∧ p.shape = [] ∧ p.dtype = "i" ∧
      p.data = [4326] ∧
      p.attrs.lookup "semi_major_axis" = some (.rat 6378137) ∧
      p.attrs.lookup "inverse_flattening" =
        some (.rat (298257223563 / 1000000000)) := by
  unfold writePnts2HDF5 at h
  cases hc : checkLOS los lats.size with
  | error e =>
      rw [hc] at h
      exact Except.noConfusion h
  | ok v =>
      simp only [hc] at h
      repeat (split at h <;> try exact Except.noConfusion h)
      have hf := Except.ok.inj h
      subst hf
      refine ⟨?_, ?_, ?_,
        ⟨[], [4326], "i",
          [("semi_major_axis", .rat 6378137),
           ("inverse_flattening", .rat (298257223563 / 1000000000)),
           ("ellipsoid", .str "WGS84"),
           ("epsg_code", .nat 4326),
           ("spatial_ref", .str wgs84Wkt),
           ("grid_mapping_name", .str "latitude_longitude"),
           ("longitude_of_prime_meridian", .rat 0)]⟩,
        ?_, rfl, rfl, rfl, rfl, rfl⟩ <;>
        simp [H5.ds_mk_nil, H5.ds_setFAttr, H5.ds_addDs_ne, H5.ds_addDs_self,
          H5.ds_setDsAttr_ne, H5.ds_setDsAttr_self]

set_option maxHeartbeats 2000000 in
/-- C8 exercised at the concrete 3 x 4 grid write with the explicit
valid chunk shape (1, 1), a write the program completes. -/
theorem writePnts_placeholder_schema_witness :
    f343.ds "Rays_SP" = some ⟨lats34.shape ++ [3],
        List.replicate ((lats34.shape ++ [3]).prod) 0, "f8",
        [("grid_mapping", .str "projection")]⟩ ∧
    f343.ds "Rays_len" = some ⟨lats34.shape, List.replicate lats34.shape.prod 0, "f8",
        [("grid_mapping", .str "projection")]⟩ ∧
    f343.ds "Rays_SLV" = some ⟨lats34.shape ++ [3],
        List.replicate ((lats34.shape ++ [3]).prod) 0, "f8",
        [("grid_mapping", .str "projection")]⟩ ∧
    ∃ p, f343.ds "projection" = some p ∧ p.shape = [] ∧ p.dtype = "i" ∧
      p.data = [4326] ∧
      p.attrs.lookup "semi_major_axis" = some (.rat 6378137) ∧
      p.attrs.lookup "inverse_flattening" =
        some (.rat (298257223563 / 1000000000)) :=
  writePnts_placeholder_schema (fun s => s) lats34 lons34 hgts34 (.arr los343)
    (some [1, 1]) f343 rfl
